import Mathlib

/-!
Verification of the `pelican-ipynb` core module (`core.py`) against its
natural-language specification.

The development is a shallow embedding: the pure string/list logic of
`core.py` is translated into executable Lean definitions, and each claim is
settled by a theorem about those definitions.

Modelling conventions:
* Python strings are Lean `String`s; scanning primitives (`in`, `str.find`,
  `str.replace`, regex substitution) are modelled by structural recursion on
  `List Char` (`String.data`).
* Python `str.lower` is modelled by `Char.toLower` (the repository only
  lowercases ASCII file names).
* A Python exception (assertion failure, `ValueError` from tuple unpacking,
  `NameError`, `IndexError`) is modelled as `Except.error`; a conversion that
  aborts is a run of the cell loop that returns `Except.error`.
* `deepcopy` is modelled by Lean's value semantics: functions return new
  values and can never mutate their arguments.
-/

/-- `leadMatch pat l` is true when `pat` is an initial segment of `l`
(character-wise).  It is the primitive behind the Python `in`, `find` and
`replace` operations modelled below. -/
def leadMatch : List Char → List Char → Bool
  | [], _ => true
  | _ :: _, [] => false
  | p :: ps, c :: cs => p == c && leadMatch ps cs

/-- `hasSubL pat l` models Python `pat in l`: `pat` occurs (contiguously)
somewhere in `l`. -/
def hasSubL (pat : List Char) : List Char → Bool
  | [] => leadMatch pat []
  | c :: cs => leadMatch pat (c :: cs) || hasSubL pat cs

/-- Python `pat in s` on strings. -/
def containsSub (s pat : String) : Bool :=
  hasSubL pat.data s.data

/-- `findSubL pat l` models Python `l.find(pat)`: index of the first
occurrence, or `none` (Python returns `-1`). -/
def findSubL (pat : List Char) : List Char → Option Nat
  | [] => if leadMatch pat [] then some 0 else none
  | c :: cs =>
    if leadMatch pat (c :: cs) then some 0
    else (findSubL pat cs).map (· + 1)

/-- Skip-counter worker for Python `replace`: while the counter is positive
the characters of the current match are being consumed; at zero, a match of
`pat` emits `rep` and schedules the matched characters to be skipped,
otherwise the character is kept.  Matches are non-overlapping and the scan
is left to right, as in Python. -/
def replaceAux (pat rep : List Char) : Nat → List Char → List Char
  | _, [] => []
  | Nat.succ skip, _ :: cs => replaceAux pat rep skip cs
  | 0, c :: cs =>
    if pat ≠ [] ∧ leadMatch pat (c :: cs) = true then
      rep ++ replaceAux pat rep (pat.length - 1) cs
    else
      c :: replaceAux pat rep 0 cs

/-- `replaceAllL pat rep l` models Python `l.replace(pat, rep)`: replace the
non-overlapping occurrences of `pat`, scanning left to right.  The callers in
`core.py` never pass an empty pattern, for which the model returns `l`
unchanged. -/
def replaceAllL (pat rep l : List Char) : List Char :=
  replaceAux pat rep 0 l

/-- Python `s.replace(pat, rep)` on strings. -/
def pyReplace (s pat rep : String) : String :=
  ⟨replaceAllL pat.data rep.data s.data⟩

/-- Python `s.lower()` (ASCII model). -/
def lowerStr (s : String) : String :=
  ⟨s.data.map Char.toLower⟩

/-- Number of positions of `l` at which `pat` occurs (the patterns counted in
this development are never empty and never self-overlapping). -/
def countSubL (pat : List Char) : List Char → Nat
  | [] => 0
  | c :: cs => (if leadMatch pat (c :: cs) then 1 else 0) + countSubL pat cs

/-- Occurrence count of `pat` in the string `s`. -/
def countSubStr (s pat : String) : Nat :=
  countSubL pat.data s.data

/- ## Cell Slicer (`SubCell`, core.py lines 424-443) -/

/-- A notebook: an ordered sequence of cells (the cell payload is opaque to
the slicer, hence a type parameter). -/
structure Notebook (α : Type) where
  cells : List α
deriving Repr, DecidableEq

/-- The `SubCell` preprocessor configuration: the `start`/`end` traits are
`SliceIndex` values, i.e. either `None` or an integer (`core.py` lines
424-438; `end` is a Lean keyword, hence the field name `stop`). -/
structure SubCell where
  start : Option Int
  stop : Option Int
deriving Repr, DecidableEq

/-- Resolution of one Python slice bound against a list of length `n`:
`none` resolves to the default, a negative index counts from the end and
clamps at `0`, a non-negative index clamps at `n`. -/
def resolveBound (n : Nat) (dflt : Nat) : Option Int → Nat
  | none => dflt
  | some i =>
    if i < 0 then ((n : Int) + i).toNat
    else min n i.toNat

/-- Python list slicing `l[start:stop]` (step 1). -/
def pySlice (start stop : Option Int) (l : List α) : List α :=
  let s := resolveBound l.length 0 start
  let e := resolveBound l.length l.length stop
  (l.drop s).take (e - s)

/-- `SubCell.preprocess` (core.py lines 440-443): deep-copy the notebook,
slice its cell list, and return it together with the untouched resources. -/
def SubCell.preprocess (sc : SubCell) (nb : Notebook α) (resources : ρ) :
    Notebook α × ρ :=
  ({ cells := pySlice sc.start sc.stop nb.cells }, resources)

/- ## Fixed MathJax bootstrap script (core.py lines 59-88) -/

/-- The `LATEX_CUSTOM_SCRIPT` constant appended by `parse_css`. -/
def LATEX_CUSTOM_SCRIPT : String :=
  "\n<script type=\"text/javascript\">if (!document.getElementById(\x27mathjaxscript_pelican_#%@#$@#\x27)) \x7b\n    var mathjaxscript = document.createElement(\x27script\x27);\n    mathjaxscript.id = \x27mathjaxscript_pelican_#%@#$@#\x27;\n    mathjaxscript.type = \x27text/javascript\x27;\n    mathjaxscript.src = \x27//cdnjs.cloudflare.com/ajax/libs/mathjax/2.7.1/MathJax.js?config=TeX-AMS-MML_HTMLorMML\x27;\n    mathjaxscript[(window.opera ? \"innerHTML\" : \"text\")] =\n        \"MathJax.Hub.Config(\x7b\" +\n        \"    config: [\x27MMLorHTML.js\x27],\" +\n        \"    TeX: \x7b extensions: [\x27AMSmath.js\x27,\x27AMSsymbols.js\x27,\x27noErrors.js\x27,\x27noUndefined.js\x27], equationNumbers: \x7b autoNumber: \x27AMS\x27 \x7d \x7d,\" +\n        \"    jax: [\x27input/TeX\x27,\x27input/MathML\x27,\x27output/HTML-CSS\x27],\" +\n        \"    extensions: [\x27tex2jax.js\x27,\x27mml2jax.js\x27,\x27MathMenu.js\x27,\x27MathZoom.js\x27],\" +\n        \"    displayAlign: \x27center\x27,\" +\n        \"    displayIndent: \x270em\x27,\" +\n        \"    showMathMenu: true,\" +\n        \"    tex2jax: \x7b \" +\n        \"        inlineMath: [ [\x27$\x27,\x27$\x27] ], \" +\n        \"        displayMath: [ [\x27$$\x27,\x27$$\x27] ],\" +\n        \"        processEscapes: true,\" +\n        \"        preview: \x27TeX\x27,\" +\n        \"    \x7d, \" +\n        \"    \x27HTML-CSS\x27: \x7b \" +\n        \" linebreaks: \x7b automatic: true, width: \x2795% container\x27 \x7d, \" +\n        \"        styles: \x7b \x27.MathJax_Display, .MathJax .mo, .MathJax .mi, .MathJax .mn\x27: \x7bcolor: \x27black ! important\x27\x7d \x7d\" +\n        \"    \x7d \" +\n        \"\x7d); \";\n    (document.body || document.getElementsByTagName(\x27head\x27)[0]).appendChild(mathjaxscript);\n\x7d\n</script>\n"

/- ## Template Expander: directive sub-templates (core.py lines 164-358) -/

/-- The `!quote` skeleton (core.py lines 229-238). -/
def quoteHtml (quote author_intro : String) : String :=
  "\n                <blockquote>\n                    <p>\n                        " ++
    (quote ++
      ("\n                        <br>\n                        " ++
        (author_intro ++
          "\n                        <br>\n                    </p>\n                </blockquote>\n                ")))

/-- The right-floated attribution span of `!quote` (core.py lines 226-228). -/
def quoteAuthorIntro (a : String) : String :=
  "\n                    <span style=\"float:right;margin-right: 1.5rem\">─ " ++
    (a ++ "</span>\n                    ")

/-- The `!quote` branch (core.py lines 223-238): the first value is the
quotation, a second value (when present) becomes the attribution; further
values are ignored.  An empty value list would raise an `IndexError` on
`values[0]` (unreachable: the loop skips cells with no values). -/
def quoteBranch (values : List String) : Except String String :=
  match values with
  | [] => .error "IndexError: list index out of range"
  | q :: rest =>
    let author_intro := match rest with
      | [] => ""
      | a :: _ => quoteAuthorIntro a
    .ok (quoteHtml q author_intro)

/-- The anchor id of `!article` (core.py line 210): note that the first
`replace` call replaces an ASCII space by an ASCII space (a no-op), the
second maps the full-width space U+3000 to an ASCII space, and the third maps
ASCII spaces to hyphens. -/
def anchor_link_of (title : String) : String :=
  pyReplace (pyReplace (pyReplace title " " " ") "　" " ") " " "-"

/-- The `!article` skeleton (core.py lines 211-222); `{{filename}}` is an
escaped format brace, so the literal text `\x7bfilename\x7d` lands in the
output. -/
def articleHtml (anchor_link link title image_filename style_str : String) : String :=
  "\n                <h2 id=\"" ++
    (anchor_link ++
      ("\">\n                    <a href=\"" ++
        (link ++
          ("\" target=\"_blank\">" ++
            (title ++
              ("</a><a class=\"anchor-link\" href=\"#" ++
                (anchor_link ++
                  ("\">¶</a>\n                </h2>\n                <center>\n                    <a href=\"" ++
                    (link ++
                      ("\" target=\"_blank\">\n                        <img src=\"\x7bfilename\x7dimages/digests/" ++
                        (image_filename ++
                          ("\" " ++
                            (style_str ++
                              ">\n                    </a>\n                    <br>\n                </center>\n                ")))))))))))))

/-- The `!article` branch (core.py lines 208-222): a tuple unpacking
`title, link, image_filename = values` succeeds only for exactly three
values and otherwise raises a `ValueError`, aborting the conversion. -/
def articleBranch (style_str : String) (values : List String) : Except String String :=
  match values with
  | [title, link, image_filename] =>
    .ok (articleHtml (anchor_link_of title) link title image_filename style_str)
  | _ => .error "ValueError: cannot unpack values (expected 3)"

/-- Content classification of the two-argument `!mp4` case (core.py lines
243-251): each value is lowercased, a value containing `.mp4` is stored as
the video file, a value containing an image extension as the poster image,
anything else as the description.  The result triple is
(mp4 file, image file, description). -/
def mp4Classify (values : List String) : String × String × String :=
  values.foldl (fun acc v =>
    let lv := lowerStr v
    if containsSub lv ".mp4" then (lv, acc.2.1, acc.2.2)
    else if containsSub lv ".jpg" || containsSub lv ".png" ||
        containsSub lv ".svg" || containsSub lv ".jpeg" then (acc.1, lv, acc.2.2)
    else (acc.1, acc.2.1, lv)) ("", "", "")

/-- The credit link of `!mp4` (core.py lines 262-264). -/
def mp4SourceStr (source_link : String) : String :=
  "\n                        （<a href=\"" ++
    (source_link ++ "\" target=\"_blank\">圖片來源</a>）\n                        ")

/-- The centered caption of `!mp4` (core.py lines 266-272). -/
def mp4DescrWrap (description source_str : String) : String :=
  "\n                    <center>\n                        " ++
    (description ++
      (source_str ++
        "\n                        <br/>\n                        <br/>\n                    </center>\n                    "))

/-- The `<video>` skeleton of `!mp4` (core.py lines 276-283); the
`poster`/`src` attribute values are the literal prefix `\x7bfilename\x7d`
followed by the image/video file path. -/
def videoHtml (mp4_options image_file mp4_file class_str style_str description : String) : String :=
  ("\n                <video " ++ (mp4_options ++ " ")) ++
    ((("poster=\"\x7bfilename\x7d" ++ image_file) ++ "\"") ++
      ((" " ++ (class_str ++ (" " ++ (style_str ++ "> \n                  <source ")))) ++
        ((("src=\"\x7bfilename\x7d" ++ mp4_file) ++ "\"") ++
          (" type=\"video/mp4\">\n                    您的瀏覽器不支援影片標籤，請留言通知我：S\n                </video>\n                " ++
            (description ++ "\n                ")))))

/-- The shared tail of the `!mp4` branch (core.py lines 260-283): wrap the
description (with an optional credit link) or fall back to `<br>`, then build
the `<video>` tag.  The argument triple is (mp4 file, image file,
description). -/
def mp4Assemble (mp4_options class_str style_str : String)
    (t : String × String × String) (source_link : String) : String :=
  let description :=
    if t.2.2 ≠ "" then
      mp4DescrWrap t.2.2 (if source_link ≠ "" then mp4SourceStr source_link else "")
    else "<br>"
  videoHtml mp4_options t.2.1 t.1 class_str style_str description

/-- The `!mp4` branch (core.py lines 239-283).  One value: the video file;
two values: content classification; three values: (video, image,
description) with an assertion that the video name contains `.mp4`; four
values: additionally a credit link that must contain `http`; zero or five and
more values: no case fires and the tag is built from empty strings. -/
def mp4Branch (mp4_options class_str style_str : String)
    (values : List String) : Except String String :=
  match values with
  | [v] => .ok (mp4Assemble mp4_options class_str style_str (v, "", "") "")
  | [a, b] => .ok (mp4Assemble mp4_options class_str style_str (mp4Classify [a, b]) "")
  | [m, i, d] =>
    if containsSub m ".mp4" then
      .ok (mp4Assemble mp4_options class_str style_str (m, i, d) "")
    else .error "AssertionError: 沒有對應的 mp4 檔案！"
  | [m, i, d, s] =>
    if containsSub m ".mp4" then
      if containsSub s "http" then
        .ok (mp4Assemble mp4_options class_str style_str (m, i, d) s)
      else .error "AssertionError: 沒有對應的網址！"
    else .error "AssertionError: 沒有對應的 mp4 檔案！"
  | _ => .ok (mp4Assemble mp4_options class_str style_str ("", "", "") "")

/-- The single-image skeleton of `!image` (core.py lines 286-289). -/
def imageHtml1 (class_str style_str image_file : String) : String :=
  "\n                    <img " ++
    (class_str ++
      (" " ++
        (style_str ++
          (" src=\"\x7bfilename\x7dimages/" ++
            (image_file ++ "\"/>\n                    <br>\n                    ")))))

/-- The three-argument credit link of `!image` (core.py lines 295-297). -/
def imageSrc1 (source_link : String) : String :=
  "\n                        （<a href=\"" ++
    (source_link ++ "\" target=\"_blank\">圖片來源</a>）\n                        ")

/-- The four-argument credit link of `!image` (core.py lines 300-302). -/
def imageSrc2 (source_link source_name : String) : String :=
  "\n                        （圖片來源：<a href=\"" ++
    (source_link ++
      ("\" target=\"_blank\">" ++ (source_name ++ "</a>）\n                        ")))

/-- The captioned-image skeleton of `!image` (core.py lines 304-314). -/
def imageHtml2 (class_str style_str image_file description source_str : String) : String :=
  "\n                    <center>\n                        <img " ++
    (class_str ++
      (" " ++
        (style_str ++
          (" src=\"\x7bfilename\x7d/images/" ++
            (image_file ++
              ("\">\n                    </center>\n                    <center>\n                        " ++
                (description ++
                  (source_str ++
                    "\n                        <br>\n                        <br>\n                    </center>\n                    "))))))))

/-- The `!image` branch (core.py lines 284-314). -/
def imageBranch (class_str style_str : String) (values : List String) :
    Except String String :=
  match values with
  | [] => .error "IndexError: list index out of range"
  | [image_file] => .ok (imageHtml1 class_str style_str image_file)
  | image_file :: description :: rest =>
    let source_str := match rest with
      | [] => ""
      | [source_link] => imageSrc1 source_link
      | [source_link, source_name] => imageSrc2 source_link source_name
      | _ => ""
    .ok (imageHtml2 class_str style_str image_file description source_str)

/-- The `src` attribute value of the `!youtube` iframe (core.py line 342). -/
def youtubeSrcVal (video_id period_str : String) : String :=
  "https://www.youtube-nocookie.com/embed/" ++ (video_id ++ period_str)

/-- The centered caption of `!youtube`, or `<br>` when the description is
empty (core.py lines 328-337). -/
def ytDescrWrap (description : String) : String :=
  if description ≠ "" then
    "\n                    <center>\n                        " ++
      (description ++
        "\n                        <br/>\n                        <br/>\n                    </center>\n                    ")
  else "<br>"

/-- The `!youtube` iframe skeleton (core.py lines 339-349). -/
def youtubeHtml (video_id period_str description : String) : String :=
  "\n                <div class=\"resp-container\">\n                    <iframe class=\"resp-iframe\" \n                            src=\"" ++
    (youtubeSrcVal video_id period_str ++
      ("\" \n                            frameborder=\"0\" \n                            allow=\"accelerometer; \n                            autoplay; encrypted-media; gyroscope; picture-in-picture\" allowfullscreen>\n                    </iframe>\n                </div>\n                " ++
        (description ++ "\n                ")))

/-- The `!youtube` branch (core.py lines 315-349).  Three values add
`?start=<start>` to the src, four values add `?start=<start>&end=<end>`;
zero or five and more values leave `video_id` unassigned, raising a
`NameError` when the skeleton is formatted. -/
def youtubeBranch (values : List String) : Except String String :=
  match values with
  | [v] => .ok (youtubeHtml v "" (ytDescrWrap ""))
  | [v, d] => .ok (youtubeHtml v "" (ytDescrWrap d))
  | [v, d, st] => .ok (youtubeHtml v ("?start=" ++ st) (ytDescrWrap d))
  | [v, d, st, en] =>
    .ok (youtubeHtml v ("?start=" ++ (st ++ ("&end=" ++ en))) (ytDescrWrap d))
  | _ => .error "NameError: name video_id is not defined"

/- ## Template Expander: item scanning and the per-document cell loop -/

/-- A rendered markdown cell as seen by the template loop: the first text
node (the keyword candidate) and the list-item texts. -/
structure MdCell where
  keyword : String
  items : List String
deriving Repr, DecidableEq

/-- The special `options:` handling of `!mp4` items (core.py lines 190-197):
mutate the running option string by removing `loop ` or `autoplay ` or
appending ` controls`. -/
def applyMp4Option (text : String) (opts : String) : String :=
  let t := pyReplace text "_" "-"
  let o1 := if containsSub t "no-loop" then pyReplace opts "loop " "" else opts
  let o2 := if containsSub t "no-autoplay" then pyReplace o1 "autoplay " "" else o1
  if containsSub text "controls" then o2 ++ " controls" else o2

/-- One list item of a directive cell (core.py lines 181-199).  The state is
(mp4 option string, style accumulator, positional values). -/
def scanItem (keyword : String) (st : String × String × List String)
    (text : String) : String × String × List String :=
  if text = "dark" then (st.1, st.2.1 ++ "mix-blend-mode: initial;", st.2.2)
  else if leadMatch "style:".data text.data then
    (st.1, st.2.1 ++ pyReplace text "style:" "", st.2.2)
  else if keyword = "!mp4" ∧ containsSub text "options:" then
    (applyMp4Option text st.1, st.2.1, st.2.2)
  else (st.1, st.2.1, st.2.2 ++ [text])

/-- Scan all list items of one directive cell. -/
def scanItems (keyword opts : String) (items : List String) :
    String × String × List String :=
  items.foldl (scanItem keyword) (opts, "", [])

/-- The keys of `template_settings` (core.py lines 170-176). -/
def keywordList : List String := ["!article", "!quote", "!mp4", "!image", "!youtube"]

/-- Keyword dispatch (core.py lines 208-349). -/
def dispatchBranch (keyword mp4_options class_str style_str : String)
    (values : List String) : Except String String :=
  if keyword = "!article" then articleBranch style_str values
  else if keyword = "!quote" then quoteBranch values
  else if keyword = "!mp4" then mp4Branch mp4_options class_str style_str values
  else if keyword = "!image" then imageBranch class_str style_str values
  else youtubeBranch values

/-- Processing of one rendered markdown cell (core.py lines 165-358): scan
the items (threading the mp4 option string), wrap the style accumulator,
skip the cell when no positional values were collected, otherwise dispatch.
Returns the option string to be inherited by the following cells, and the
generated HTML (`none` for a skipped cell). -/
def cellStep (opts : String) (c : MdCell) : String × Option (Except String String) :=
  if c.keyword ∈ keywordList then
    let s := scanItems c.keyword opts c.items
    let style_str := if s.2.1 ≠ "" then "style=\"" ++ s.2.1 ++ "\"" else ""
    let class_str := ""
    if s.2.2 = [] then (s.1, none)
    else (s.1, some (dispatchBranch c.keyword s.1 class_str style_str s.2.2))
  else (opts, none)

/-- The cell loop of one document conversion: processes the cells in
rendering order, threading the mp4 option string; an assertion or unpacking
error aborts the whole run.  Returns the final option string and the
generated HTML of each cell. -/
def processCells (opts : String) : List MdCell → Except String (String × List (Option String))
  | [] => .ok (opts, [])
  | c :: cs =>
    match cellStep opts c with
    | (opts2, none) => (processCells opts2 cs).map (fun p => (p.1, none :: p.2))
    | (_, some (.error e)) => .error e
    | (opts2, some (.ok h)) => (processCells opts2 cs).map (fun p => (p.1, some h :: p.2))

/-- The mp4 video default options (core.py line 164), assigned at the start
of every conversion call. -/
def defaultMp4Options : String := "loop autoplay muted playsinline"

/-- The templated-markdown part of `get_html_from_filepath` (core.py lines
164-358): one conversion call starts from the default option string and runs
the cell loop once. -/
def render_text_cells (cells : List MdCell) : Except String (List (Option String)) :=
  (processCells defaultMp4Options cells).map Prod.snd

/-- The mp4 option string left behind by one cell. -/
def stateOf (opts : String) (c : MdCell) : String := (cellStep opts c).1

/- ## CSS Finisher (`parse_css`, core.py lines 365-401) -/

/-- `style_tag` (core.py lines 372-373). -/
def style_tag (styles : String) : String :=
  "<style type=\"text/css\">" ++ styles ++ "</style>"

/-- First marker comment of `filter_css` (core.py line 381). -/
def notebookMarker : List Char := "/*!\n*\n* IPython notebook\n*\n*/".data

/-- Second marker comment of `filter_css` (core.py line 384). -/
def webappMarker : List Char := "/*!\n*\n* IPython notebook webapp\n*\n*/".data

/-- One attempt of the regex `color\\:\\#0+(;)?` at the head of `l`
(core.py line 388): the literal `color:#`, then a maximal nonempty run of
zeros, then an optional semicolon; on success, the length of the matched
text. -/
def matchColor (l : List Char) : Option Nat :=
  if leadMatch "color:#".data l then
    let zs := (l.drop 7).takeWhile (· == '0')
    if zs = [] then none
    else
      match (l.drop 7).dropWhile (· == '0') with
      | ';' :: _ => some (7 + zs.length + 1)
      | _ => some (7 + zs.length)
  else none

/-- The left-to-right substitution pass `re.sub(r'color\\:\\#0+(;)?', '', s)`
(core.py line 388): remove each non-overlapping match and continue scanning
after it, without rescanning the spliced seam.  The first argument is the
number of characters of the current match still to be skipped. -/
def removeColorAux : Nat → List Char → List Char
  | _, [] => []
  | Nat.succ skip, _ :: cs => removeColorAux skip cs
  | 0, c :: cs =>
    match matchColor (c :: cs) with
    | some k => removeColorAux (k - 1) cs
    | none => c :: removeColorAux 0 cs

/-- The color-declaration substitution pass on a whole fragment. -/
def removeColor (l : List Char) : List Char := removeColorAux 0 l

/-- Whether `l` contains (at any position) a match of the color-declaration
regex. -/
def hasColorDecl : List Char → Bool
  | [] => false
  | c :: cs => (matchColor (c :: cs)).isSome || hasColorDecl cs

/-- The character class `[a-z0-9,._ ]` of the `.rendered_html` regex
(core.py line 389). -/
def isCl1 (c : Char) : Bool :=
  c.isLower || c.isDigit || c == ',' || c == '.' || c == '_' || c == ' '

/-- The character class `[a-z0-9:;%.#\\-\\s\\n]` of the `.rendered_html` regex
(core.py line 389); `\\s` is modelled by its ASCII members. -/
def isCl2 (c : Char) : Bool :=
  c.isLower || c.isDigit || c == ':' || c == ';' || c == '%' || c == '.' ||
    c == '#' || c == '-' || c == ' ' || c == '\t' || c == '\n' || c == '\r' ||
    c == '\x0b' || c == '\x0c'

/-- One attempt of the regex
`\\.rendered_html[a-z0-9,._ ]*\\\x7b[a-z0-9:;%.#\\-\\s\\n]+\\\x7d` at the head of
`l` (core.py line 389); on success, the length of the matched text.  Both
character classes exclude the braces, so the greedy scan is deterministic
and needs no backtracking. -/
def matchRendered (l : List Char) : Option Nat :=
  if leadMatch ".rendered_html".data l then
    let sel := (l.drop 14).takeWhile isCl1
    match (l.drop 14).dropWhile isCl1 with
    | '{' :: r1 =>
      let body := r1.takeWhile isCl2
      if body = [] then none
      else
        match r1.dropWhile isCl2 with
        | '}' :: _ => some (14 + sel.length + 1 + body.length + 1)
        | _ => none
    | _ => none
  else none

/-- The left-to-right substitution pass of the `.rendered_html` regex
(core.py line 389), in the same skip-counter style as `removeColorAux`. -/
def removeRenderedAux : Nat → List Char → List Char
  | _, [] => []
  | Nat.succ skip, _ :: cs => removeRenderedAux skip cs
  | 0, c :: cs =>
    match matchRendered (c :: cs) with
    | some k => removeRenderedAux (k - 1) cs
    | none => c :: removeRenderedAux 0 cs

/-- The `.rendered_html` substitution pass on a whole fragment. -/
def removeRendered (l : List Char) : List Char := removeRenderedAux 0 l

/-- `filter_css` (core.py lines 375-390): trim everything before the
notebook marker when it occurs at a positive index (`style.find(...) > 0`),
trim everything from the webapp marker on when it occurs at a positive
index, apply the two substitution passes, and wrap the result in a style
tag. -/
def filter_css (style : String) : String :=
  let l1 := match findSubL notebookMarker style.data with
    | some i => if 0 < i then style.data.drop i else style.data
    | none => style.data
  let l2 := match findSubL webappMarker l1 with
    | some i => if 0 < i then l1.take i else l1
    | none => l1
  style_tag ⟨removeRendered (removeColor l2)⟩

/-- `parse_css` (core.py lines 365-401).  The export info is reduced to the
only key the function reads, the ordered CSS fragment list
`info[inlining][css]`. -/
def parse_css (content : String) (css : List String)
    (fix_css ignore_css : Bool) : String :=
  if ignore_css then content ++ LATEX_CUSTOM_SCRIPT
  else
    let jupyter_css :=
      if fix_css then String.intercalate "\n" (css.map filter_css)
      else String.intercalate "\n" (css.map style_tag)
    jupyter_css ++ content ++ LATEX_CUSTOM_SCRIPT

/-- The content class of one (already lowercased) `!mp4` value, mirroring
the branch order of core.py lines 246-251: `0` = video file, `1` = poster
image, `2` = description. -/
def classOf (v : String) : Nat :=
  if containsSub v ".mp4" then 0
  else if containsSub v ".jpg" || containsSub v ".png" ||
      containsSub v ".svg" || containsSub v ".jpeg" then 1
  else 2

/- ## Generic lemmas about the scanning primitives -/

/-- Every list is an initial segment of itself. -/
theorem leadMatch_refl (l : List Char) : leadMatch l l = true := by
  induction l with
  | nil => rfl
  | cons c cs ih => simp [leadMatch, ih]

/-- An initial segment stays an initial segment after extending the list on
the right. -/
theorem leadMatch_append {pat l : List Char} (r : List Char)
    (h : leadMatch pat l = true) : leadMatch pat (l ++ r) = true := by
  induction pat generalizing l with
  | nil => rfl
  | cons p ps ih =>
    cases l with
    | nil => simp [leadMatch] at h
    | cons c cs =>
      simp only [leadMatch, Bool.and_eq_true] at h
      simpa [leadMatch, h.1] using ih h.2

/-- The empty pattern occurs in every list. -/
theorem hasSubL_nil (l : List Char) : hasSubL [] l = true := by
  induction l with
  | nil => rfl
  | cons c cs ih => simp [hasSubL, ih]

/-- Every list contains itself. -/
theorem hasSubL_self (l : List Char) : hasSubL l l = true := by
  cases l with
  | nil => rfl
  | cons c cs => simp [hasSubL, leadMatch_refl]

/-- An occurrence survives prepending text on the left. -/
theorem hasSubL_append_left {pat t : List Char} (l : List Char)
    (h : hasSubL pat t = true) : hasSubL pat (l ++ t) = true := by
  induction l with
  | nil => simpa
  | cons c cs ih => simp [hasSubL, ih]

/-- An occurrence survives appending text on the right. -/
theorem hasSubL_append_right {pat t : List Char} (r : List Char)
    (h : hasSubL pat t = true) : hasSubL pat (t ++ r) = true := by
  induction t with
  | nil =>
    cases pat with
    | nil => simpa using hasSubL_nil r
    | cons p ps => simp [hasSubL, leadMatch] at h
  | cons c cs ih =>
    simp only [hasSubL, Bool.or_eq_true] at h
    rcases h with h | h
    · have := leadMatch_append r h
      simp only [List.cons_append] at this
      simp [hasSubL, this]
    · simp [hasSubL, ih h]

/-- An occurrence of a pattern with head `c` forces `c` to occur in the
list. -/
theorem head_mem_of_hasSubL {c : Char} {ps l : List Char}
    (h : hasSubL (c :: ps) l = true) : c ∈ l := by
  induction l with
  | nil => simp [hasSubL, leadMatch] at h
  | cons x xs ih =>
    simp only [hasSubL, Bool.or_eq_true] at h
    rcases h with h | h
    · simp only [leadMatch, Bool.and_eq_true, beq_iff_eq] at h
      simp [h.1]
    · simp [ih h]

/- ## C1: the Cell Slicer -/

/-- **C1.** For every notebook and every valid `(start, stop)` pair (either
bound possibly null), `SubCell.preprocess` returns a notebook whose cell
sequence is exactly the half-open index range `[s, e)` of the input cell
sequence, where `s`/`e` are the Python-resolved bounds; the resources are
returned untouched, and (the embedding being a pure function of a deep
copy) the original notebook value is never mutated. -/
theorem subcell_preprocess_is_slice (sc : SubCell) (nb : Notebook α) (res : ρ) :
    (SubCell.preprocess sc nb res).1.cells.length =
        resolveBound nb.cells.length nb.cells.length sc.stop -
          resolveBound nb.cells.length 0 sc.start ∧
    (∀ i : Nat, (SubCell.preprocess sc nb res).1.cells[i]? =
        if i < resolveBound nb.cells.length nb.cells.length sc.stop -
            resolveBound nb.cells.length 0 sc.start then
          nb.cells[resolveBound nb.cells.length 0 sc.start + i]?
        else none) ∧
    (SubCell.preprocess sc nb res).2 = res := by
  have hbound : ∀ d, d ≤ nb.cells.length →
      resolveBound nb.cells.length d sc.stop ≤ nb.cells.length := by
    intro d hd
    cases h : sc.stop with
    | none => simpa [resolveBound]
    | some i =>
      simp only [resolveBound]
      split
      · omega
      · exact min_le_left _ _
  have he : resolveBound nb.cells.length nb.cells.length sc.stop ≤ nb.cells.length :=
    hbound _ le_rfl
  refine ⟨?_, ?_, rfl⟩
  · simp only [SubCell.preprocess, pySlice, List.length_take, List.length_drop]
    omega
  · intro i
    simp only [SubCell.preprocess, pySlice, List.getElem?_take, List.getElem?_drop]

/- ## C5: `parse_css` with `ignore_css=True` -/

set_option maxRecDepth 10000

/-- **C5.** For every HTML content string and export info, `parse_css` with
`ignore_css=True` returns exactly the input content followed by the fixed
MathJax bootstrap script; the result is independent of the CSS fragments and
of `fix_css` (the fragments are discarded), and the appended script contains
no style tag and exactly one script block. -/
theorem parse_css_ignore_css (content : String) (css css2 : List String)
    (fc fc2 : Bool) :
    parse_css content css fc true = content ++ LATEX_CUSTOM_SCRIPT ∧
    parse_css content css fc true = parse_css content css2 fc2 true ∧
    countSubStr LATEX_CUSTOM_SCRIPT "<style" = 0 ∧
    countSubStr LATEX_CUSTOM_SCRIPT "<script" = 1 :=
  ⟨rfl, rfl, by decide, by decide⟩

/- ## C2: the `!quote` directive with a single item -/

/-- **C2 (counterexample).** A markdown cell `!quote` with the single item
`Life is short` does not produce a paragraph with a single `<br>`: the quote
skeleton always interpolates two `<br>` tags (one before and one after the
— here empty — attribution), so the generated HTML contains `<br>` twice. -/
theorem quote_single_item_counterexample :
    render_text_cells [⟨"!quote", ["Life is short"]⟩] =
      .ok [some (quoteHtml "Life is short" "")] ∧
    countSubStr (quoteHtml "Life is short" "") "<br>" = 2 :=
  ⟨rfl, by decide⟩

/-- **C2 (amended).** A notebook whose only markdown cell is `!quote`
followed by the one-item list `["Life is short"]` yields a `<blockquote>`
wrapping a `<p>` that contains `Life is short` followed by a `<br>`, an
empty attribution, and a second `<br>`; no attribution `<span>` is
generated. -/
theorem quote_single_item_amended :
    render_text_cells [⟨"!quote", ["Life is short"]⟩] =
      .ok [some "\n                <blockquote>\n                    <p>\n                        Life is short\n                        <br>\n                        \n                        <br>\n                    </p>\n                </blockquote>\n                "] ∧
    containsSub (quoteHtml "Life is short" "") "<span" = false ∧
    containsSub (quoteHtml "Life is short" "") "<blockquote>\n                    <p>" = true ∧
    countSubStr (quoteHtml "Life is short" "") "<br>" = 2 :=
  ⟨rfl, by decide, by decide, by decide⟩

/- ## C3: malformed `!article`/`!quote` directives -/

/-- **C3 (counterexample).** An `!article` cell with two positional values
(an unsupported count) does not silently produce an empty HTML string: the
tuple unpacking raises a `ValueError` and the conversion aborts. -/
theorem article_bad_count_counterexample :
    render_text_cells [⟨"!article", ["t", "l"]⟩] =
      .error "ValueError: cannot unpack values (expected 3)" := rfl

/-- **C3 (amended).** An `!article` directive succeeds exactly for three
positional values — any other count raises a `ValueError` that aborts the
conversion — while a `!quote` directive produces non-empty HTML for every
positional-value count at least one (counts beyond two are not errors: the
extra items are simply ignored).  Neither keyword ever silently produces an
empty HTML string. -/
theorem article_quote_malformed_amended (style_str : String) (vs : List String)
    (hne : vs ≠ []) :
    ((articleBranch style_str vs).isOk = true ↔ vs.length = 3) ∧
    ∃ h, quoteBranch vs = .ok h ∧ h ≠ "" := by
  constructor
  · constructor
    · intro hok
      rcases vs with _ | ⟨a, _ | ⟨b, _ | ⟨c, _ | ⟨d, rest⟩⟩⟩⟩ <;>
        simp_all [articleBranch, Except.isOk, Except.toBool]
    · intro hlen
      rcases vs with _ | ⟨a, _ | ⟨b, _ | ⟨c, _ | ⟨d, rest⟩⟩⟩⟩ <;>
        simp_all [articleBranch, Except.isOk, Except.toBool]
  · rcases vs with _ | ⟨q, rest⟩
    · exact absurd rfl hne
    · refine ⟨_, rfl, ?_⟩
      intro hempty
      have hd := congrArg String.data hempty
      rw [quoteHtml, String.data_append] at hd
      have hnil := (List.append_eq_nil.mp hd).1
      exact absurd hnil (by decide)

/-- Closed instance of `article_quote_malformed_amended`. -/
theorem article_quote_malformed_witness :
    ((articleBranch "" ["a"]).isOk = true ↔ (["a"] : List String).length = 3) ∧
    ∃ h, quoteBranch ["a"] = .ok h ∧ h ≠ "" :=
  article_quote_malformed_amended "" ["a"] (by decide)

/- ## C4: `!mp4` assertions and attribute paths -/

/-- The generated video tag contains the `poster` and `src` attributes with
the literal `\x7bfilename\x7d` prefix followed by the given paths, whatever
the other interpolated strings are. -/
theorem videoHtml_contains_attrs (opts image_file mp4_file cls sty desc : String) :
    containsSub (videoHtml opts image_file mp4_file cls sty desc)
      (("poster=\"\x7bfilename\x7d" ++ image_file) ++ "\"") = true ∧
    containsSub (videoHtml opts image_file mp4_file cls sty desc)
      (("src=\"\x7bfilename\x7d" ++ mp4_file) ++ "\"") = true := by
  constructor
  · show hasSubL _ _ = true
    simp only [videoHtml, String.data_append]
    apply hasSubL_append_left
    apply hasSubL_append_right
    exact hasSubL_self _
  · show hasSubL _ _ = true
    simp only [videoHtml, String.data_append]
    apply hasSubL_append_left
    apply hasSubL_append_left
    apply hasSubL_append_left
    apply hasSubL_append_right
    exact hasSubL_self _

/-- **C4 (counterexample).** With the valid arguments
`["v.mp4", "p.jpg", "cap"]` the generated video tag does *not* carry
`poster="p.jpg"` or `src="v.mp4"`: both attribute values are prefixed by the
literal text `\x7bfilename\x7d` (the escaped `\x7b\x7bfilename\x7d\x7d`
format braces of the template), so they do not equal the given paths
exactly. -/
theorem mp4_poster_prefix_counterexample :
    mp4Branch defaultMp4Options "" "" ["v.mp4", "p.jpg", "cap"] =
      .ok (mp4Assemble defaultMp4Options "" "" ("v.mp4", "p.jpg", "cap") "") ∧
    containsSub (mp4Assemble defaultMp4Options "" "" ("v.mp4", "p.jpg", "cap") "")
      "poster=\"p.jpg\"" = false ∧
    containsSub (mp4Assemble defaultMp4Options "" "" ("v.mp4", "p.jpg", "cap") "")
      "poster=\"\x7bfilename\x7dp.jpg\"" = true ∧
    containsSub (mp4Assemble defaultMp4Options "" "" ("v.mp4", "p.jpg", "cap") "")
      "src=\"v.mp4\"" = false ∧
    containsSub (mp4Assemble defaultMp4Options "" "" ("v.mp4", "p.jpg", "cap") "")
      "src=\"\x7bfilename\x7dv.mp4\"" = true :=
  ⟨rfl, by decide, by decide, by decide, by decide⟩

/-- **C4 (amended).** An `!mp4` directive with three positional arguments
whose first does not contain `.mp4` raises the assertion error, aborting the
conversion; with four arguments it additionally raises when the fourth does
not contain `http`; with all-valid arguments it produces a video tag whose
`poster` and `src` attributes are the literal `\x7bfilename\x7d` prefix
followed by the given image and video file paths exactly.  (The hypotheses
that the paths contain no double quote make the containment statements pin
the whole attribute values.) -/
theorem mp4_assert_and_paths_amended (opts cls sty m p d s : String)
    (hpq : containsSub p "\"" = false) (hmq : containsSub m "\"" = false) :
    (containsSub m ".mp4" = false →
      mp4Branch opts cls sty [m, p, d] =
          .error "AssertionError: 沒有對應的 mp4 檔案！" ∧
      mp4Branch opts cls sty [m, p, d, s] =
          .error "AssertionError: 沒有對應的 mp4 檔案！") ∧
    (containsSub m ".mp4" = true → containsSub s "http" = false →
      mp4Branch opts cls sty [m, p, d, s] =
          .error "AssertionError: 沒有對應的網址！") ∧
    (containsSub m ".mp4" = true →
      mp4Branch opts cls sty [m, p, d] =
          .ok (mp4Assemble opts cls sty (m, p, d) "") ∧
      containsSub (mp4Assemble opts cls sty (m, p, d) "")
        (("poster=\"\x7bfilename\x7d" ++ p) ++ "\"") = true ∧
      containsSub (mp4Assemble opts cls sty (m, p, d) "")
        (("src=\"\x7bfilename\x7d" ++ m) ++ "\"") = true) := by
  refine ⟨?_, ?_, ?_⟩
  · intro hm
    constructor <;> simp [mp4Branch, hm]
  · intro hm hs
    simp [mp4Branch, hm, hs]
  · intro hm
    refine ⟨by simp [mp4Branch, hm], ?_, ?_⟩
    · rw [mp4Assemble]
      exact (videoHtml_contains_attrs opts p m cls sty _).1
    · rw [mp4Assemble]
      exact (videoHtml_contains_attrs opts p m cls sty _).2

/-- Closed instance of `mp4_assert_and_paths_amended`. -/
theorem mp4_assert_and_paths_witness :
    (containsSub "v.mp4" ".mp4" = false →
      mp4Branch defaultMp4Options "" "" ["v.mp4", "p.jpg", "cap"] =
          .error "AssertionError: 沒有對應的 mp4 檔案！" ∧
      mp4Branch defaultMp4Options "" "" ["v.mp4", "p.jpg", "cap", "nolink"] =
          .error "AssertionError: 沒有對應的 mp4 檔案！") ∧
    (containsSub "v.mp4" ".mp4" = true → containsSub "nolink" "http" = false →
      mp4Branch defaultMp4Options "" "" ["v.mp4", "p.jpg", "cap", "nolink"] =
          .error "AssertionError: 沒有對應的網址！") ∧
    (containsSub "v.mp4" ".mp4" = true →
      mp4Branch defaultMp4Options "" "" ["v.mp4", "p.jpg", "cap"] =
          .ok (mp4Assemble defaultMp4Options "" "" ("v.mp4", "p.jpg", "cap") "") ∧
      containsSub (mp4Assemble defaultMp4Options "" "" ("v.mp4", "p.jpg", "cap") "")
        (("poster=\"\x7bfilename\x7d" ++ "p.jpg") ++ "\"") = true ∧
      containsSub (mp4Assemble defaultMp4Options "" "" ("v.mp4", "p.jpg", "cap") "")
        (("src=\"\x7bfilename\x7d" ++ "v.mp4") ++ "\"") = true) :=
  mp4_assert_and_paths_amended defaultMp4Options "" "" "v.mp4" "p.jpg" "cap" "nolink"
    (by decide) (by decide)

/- ## C7: `!youtube` start/end query parameters -/

/-- A match at the head of the list is in particular an occurrence. -/
theorem hasSubL_of_leadMatch {pat l : List Char} (h : leadMatch pat l = true) :
    hasSubL pat l = true := by
  cases l with
  | nil =>
    cases pat with
    | nil => rfl
    | cons p ps => simp [leadMatch] at h
  | cons c cs => simp [hasSubL, h]

/-- **C7.** A `!youtube` directive with exactly three positional values
(id, description, start) generates an iframe whose `src` attribute value is
the embed URL followed by `?start=<start>` and containing no `&end=`; with
four values the src carries both `?start=<start>` and `&end=<end>`.  The
hypotheses — the id and start values contain no ampersand, as any real
video id and numeric offset do — rule out an `&end=` smuggled in through
the interpolated values themselves. -/
theorem youtube_start_end_params (id d st en : String)
    (h1 : '&' ∉ id.data) (h2 : '&' ∉ st.data) :
    youtubeBranch [id, d, st] =
      .ok (youtubeHtml id ("?start=" ++ st) (ytDescrWrap d)) ∧
    youtubeBranch [id, d, st, en] =
      .ok (youtubeHtml id ("?start=" ++ (st ++ ("&end=" ++ en))) (ytDescrWrap d)) ∧
    containsSub (youtubeSrcVal id ("?start=" ++ st)) ("?start=" ++ st) = true ∧
    containsSub (youtubeSrcVal id ("?start=" ++ st)) "&end=" = false ∧
    containsSub (youtubeSrcVal id ("?start=" ++ (st ++ ("&end=" ++ en))))
      ("?start=" ++ st) = true ∧
    containsSub (youtubeSrcVal id ("?start=" ++ (st ++ ("&end=" ++ en))))
      ("&end=" ++ en) = true := by
  refine ⟨rfl, rfl, ?_, ?_, ?_, ?_⟩
  · show hasSubL _ _ = true
    simp only [youtubeSrcVal, String.data_append]
    apply hasSubL_append_left
    apply hasSubL_append_left
    exact hasSubL_self _
  · by_contra hcon
    rw [Bool.not_eq_false] at hcon
    have hmem : '&' ∈ (youtubeSrcVal id ("?start=" ++ st)).data :=
      head_mem_of_hasSubL hcon
    simp only [youtubeSrcVal, String.data_append, List.mem_append] at hmem
    rcases hmem with hb | hid | hqs | hst
    · exact absurd hb (by decide)
    · exact h1 hid
    · exact absurd hqs (by decide)
    · exact h2 hst
  · show hasSubL _ _ = true
    simp only [youtubeSrcVal, String.data_append]
    apply hasSubL_append_left
    apply hasSubL_append_left
    apply hasSubL_of_leadMatch
    have h := leadMatch_append ("&end=" ++ en).data
      (leadMatch_refl ("?start=".data ++ st.data))
    rw [List.append_assoc] at h
    simpa [String.data_append] using h
  · show hasSubL _ _ = true
    simp only [youtubeSrcVal, String.data_append]
    apply hasSubL_append_left
    apply hasSubL_append_left
    apply hasSubL_append_left
    apply hasSubL_append_left
    exact hasSubL_self _

/-- Closed instance of `youtube_start_end_params`. -/
theorem youtube_start_end_params_witness :
    youtubeBranch ["abc123", "demo", "10"] =
      .ok (youtubeHtml "abc123" ("?start=" ++ "10") (ytDescrWrap "demo")) ∧
    youtubeBranch ["abc123", "demo", "10", "25"] =
      .ok (youtubeHtml "abc123" ("?start=" ++ ("10" ++ ("&end=" ++ "25")))
        (ytDescrWrap "demo")) ∧
    containsSub (youtubeSrcVal "abc123" ("?start=" ++ "10"))
      ("?start=" ++ "10") = true ∧
    containsSub (youtubeSrcVal "abc123" ("?start=" ++ "10")) "&end=" = false ∧
    containsSub (youtubeSrcVal "abc123" ("?start=" ++ ("10" ++ ("&end=" ++ "25"))))
      ("?start=" ++ "10") = true ∧
    containsSub (youtubeSrcVal "abc123" ("?start=" ++ ("10" ++ ("&end=" ++ "25"))))
      ("&end=" ++ "25") = true :=
  youtube_start_end_params "abc123" "demo" "10" "25" (by decide) (by decide)

/- ## C8: the `!article` anchor id -/

/-- Replacement of a single-character pattern is a pointwise map. -/
theorem replaceAllL_single (c d : Char) (l : List Char) :
    replaceAllL [c] [d] l = l.map (fun x => if x = c then d else x) := by
  induction l with
  | nil => rfl
  | cons x xs ih =>
    simp only [replaceAllL] at ih ⊢
    rw [replaceAux]
    by_cases hx : x = c
    · simp [leadMatch, hx, ih]
    · have hne : (c == x) = false := by
        simp only [beq_eq_false_iff_ne, ne_eq]
        exact fun he => hx he.symm
      simp [leadMatch, hne, hx, ih]

/-- **C8 (counterexample).** A title containing a non-breaking space
(U+00A0) keeps it in the anchor id: the first `replace` call of core.py
line 210 replaces an ASCII space by an ASCII space (a no-op), so
non-breaking spaces are never turned into hyphens. -/
theorem anchor_nbsp_counterexample :
    anchor_link_of "a b" = "a b" ∧ anchor_link_of "a b" ≠ "a-b" :=
  ⟨rfl, by decide⟩

/-- **C8 (amended).** The anchor id of an `!article` directive equals the
title with every ASCII space and every full-width space (U+3000) replaced by
a hyphen; any other character — in particular a non-breaking space — is
kept unchanged.  The second conjunct ties the anchor into the `!article`
branch output. -/
theorem article_anchor_amended (title : String) :
    anchor_link_of title =
      ⟨title.data.map (fun ch => if ch = ' ' ∨ ch = '　' then '-' else ch)⟩ ∧
    ∀ sty lnk img, articleBranch sty [title, lnk, img] =
      .ok (articleHtml (anchor_link_of title) lnk title img sty) := by
  refine ⟨?_, fun sty lnk img => rfl⟩
  apply String.ext
  show replaceAllL [' '] ['-']
      (replaceAllL ['　'] [' '] (replaceAllL [' '] [' '] title.data)) = _
  rw [replaceAllL_single, replaceAllL_single, replaceAllL_single,
    List.map_map, List.map_map]
  apply List.map_congr_left
  intro ch _
  by_cases h1 : ch = ' '
  · simp [h1, Function.comp]
  · by_cases h2 : ch = '　'
    · simp [h2, Function.comp]
    · simp [h1, h2, Function.comp]

/- ## C6: `parse_css` with `fix_css=True` -/

/-- A pending skip of `s` characters is the same as dropping them up
front. -/
theorem removeColorAux_skip (l : List Char) : ∀ s : Nat,
    removeColorAux s l = removeColorAux 0 (l.drop s) := by
  induction l with
  | nil => intro s; simp [removeColorAux]
  | cons c cs ih =>
    intro s
    cases s with
    | zero => rfl
    | succ s => simpa [removeColorAux] using ih s

/-- A fragment free of color-declaration matches passes through the color
substitution unchanged. -/
theorem removeColor_no_decl (l : List Char) (h : hasColorDecl l = false) :
    removeColor l = l := by
  induction l with
  | nil => rfl
  | cons c cs ih =>
    simp only [hasColorDecl, Bool.or_eq_false_iff] at h
    cases hm : matchColor (c :: cs) with
    | some k => rw [hm] at h; simp at h
    | none =>
      simp only [removeColor, removeColorAux, hm]
      exact congrArg (c :: ·) (ih h.2)

/-- A successful color match is nonempty. -/
theorem matchColor_pos {l : List Char} {k : Nat} (h : matchColor l = some k) :
    1 ≤ k := by
  unfold matchColor at h
  split at h
  · dsimp only at h
    split at h
    · exact absurd h (by simp)
    · split at h <;> (cases h; omega)
  · exact absurd h (by simp)

/-- **C6 (counterexample).** The color pass does not strip every
color-declaration from a fragment: on `colcolor:#0;or:#000;` the removal of
the match `color:#0;` splices the surrounding text into the new declaration
`color:#000;`, which the single left-to-right pass never rescans, so the
wrapped style block still contains a `color:#000;` declaration. -/
theorem filter_css_color_splice_counterexample :
    removeColor "colcolor:#0;or:#000;".data = "color:#000;".data ∧
    hasColorDecl "color:#000;".data = true ∧
    filter_css "colcolor:#0;or:#000;" =
      "<style type=\"text/css\">color:#000;</style>" ∧
    containsSub (filter_css "colcolor:#0;or:#000;") "color:#000;" = true :=
  ⟨by decide, by decide, rfl, by decide⟩

/-- **C6 (amended).** `parse_css` with `fix_css=True` and
`ignore_css=False` maps every CSS fragment through `filter_css` (marker
trimming, the color-declaration pass, the `.rendered_html` pass, then a
style-tag wrap) and returns the style tags joined by newlines, then the
HTML content, then the MathJax script, in that order.  The
color-declaration pass removes, in one left-to-right scan, each
non-overlapping match of `color:#0+(;)?`: a fragment with no match is left
unchanged, and at a match the matched characters are dropped and the scan
resumes after them — so a removal can splice adjacent text into a new
declaration that survives the pass, as the counterexample shows. -/
theorem parse_css_fix_css_amended :
    (∀ content css, parse_css content css true false =
        String.intercalate "\n" (css.map filter_css) ++ content ++
          LATEX_CUSTOM_SCRIPT) ∧
    (∀ l, hasColorDecl l = false → removeColor l = l) ∧
    (∀ l k, matchColor l = some k → removeColor l = removeColor (l.drop k)) := by
  refine ⟨fun content css => rfl, removeColor_no_decl, ?_⟩
  intro l k h
  cases l with
  | nil => exact absurd h (by simp [matchColor, leadMatch])
  | cons c cs =>
    have hk := matchColor_pos h
    obtain ⟨k0, rfl⟩ : ∃ k0, k = k0 + 1 := ⟨k - 1, by omega⟩
    simp only [removeColor, removeColorAux, h, List.drop_succ_cons]
    simpa using removeColorAux_skip cs k0

/-- Closed instance of `parse_css_fix_css_amended`. -/
theorem parse_css_fix_css_witness :
    removeColor "ab".data = "ab".data ∧
    removeColor "color:#000;".data = removeColor ("color:#000;".data.drop 11) :=
  ⟨parse_css_fix_css_amended.2.1 _ (by decide),
    parse_css_fix_css_amended.2.2 _ 11 (by decide)⟩

/- ## C9: the mp4 option string is per-document state -/

/-- **C9.** Within one document conversion the mp4 option string starts as
the fixed default `loop autoplay muted playsinline`; the cell loop splits
over list appends with the suffix starting from the state the leading cells
left behind (each subsequent cell inherits the last-seen option string); a
successful run ends in the fold of the per-cell state transitions; and the
`options:` items mutate the string by removing `loop `/`autoplay ` or
appending ` controls`.  Because `render_text_cells` is a function of the
cells alone that always starts at the default literal, no option state
survives from one conversion call to the next. -/
theorem mp4_options_carryover :
    (∀ cells, render_text_cells cells =
        (processCells defaultMp4Options cells).map Prod.snd) ∧
    (∀ opts (pre suf : List MdCell),
        processCells opts (pre ++ suf) =
          (processCells opts pre).bind (fun p =>
            (processCells p.1 suf).map (fun q => (q.1, p.2 ++ q.2)))) ∧
    (∀ (cells : List MdCell) (opts s : String) (out : List (Option String)),
        processCells opts cells = .ok (s, out) →
        s = List.foldl stateOf opts cells) ∧
    (∀ opts, stateOf opts ⟨"!mp4", ["options: no-loop"]⟩ =
        pyReplace opts "loop " "") ∧
    stateOf defaultMp4Options ⟨"!mp4", ["options: no-loop no-autoplay"]⟩ =
      "muted playsinline" ∧
    stateOf defaultMp4Options ⟨"!mp4", ["options: controls"]⟩ =
      defaultMp4Options ++ " controls" := by
  refine ⟨fun cells => rfl, ?_, ?_, fun opts => rfl, by decide, by decide⟩
  · intro opts pre suf
    induction pre generalizing opts with
    | nil =>
      simp only [List.nil_append, processCells]
      cases h : processCells opts suf <;> simp [Except.bind, Except.map, h]
    | cons c pre ih =>
      simp only [List.cons_append, processCells]
      rcases hc : cellStep opts c with ⟨o2, r⟩
      rcases r with _ | er
      · simp only [hc, List.append_eq]
        rw [ih]
        cases hp : processCells o2 pre with
        | error e => simp [Except.bind, Except.map]
        | ok p =>
          cases hq : processCells p.1 suf with
          | error e2 => simp [Except.bind, Except.map, hq]
          | ok q => simp [Except.bind, Except.map, hq]
      · rcases er with e | hh
        · simp only [hc]
          simp [Except.bind]
        · simp only [hc, List.append_eq]
          rw [ih]
          cases hp : processCells o2 pre with
          | error e => simp [Except.bind, Except.map]
          | ok p =>
            cases hq : processCells p.1 suf with
            | error e2 => simp [Except.bind, Except.map, hq]
            | ok q => simp [Except.bind, Except.map, hq]
  · intro cells
    induction cells with
    | nil =>
      intro opts s out h
      simp only [processCells, Except.ok.injEq, Prod.mk.injEq] at h
      exact h.1.symm
    | cons c cs ih =>
      intro opts s out h
      simp only [processCells] at h
      rcases hc : cellStep opts c with ⟨o2, r⟩
      rw [hc] at h
      have hst : stateOf opts c = o2 := by rw [stateOf, hc]
      rcases r with _ | er
      · dsimp only at h
        cases hp : processCells o2 cs with
        | error e => rw [hp] at h; simp [Except.map] at h
        | ok p =>
          rw [hp] at h
          simp only [Except.map, Except.ok.injEq, Prod.mk.injEq] at h
          rw [List.foldl_cons, hst, ← h.1]
          exact ih o2 p.1 p.2 (by rw [hp])
      · rcases er with e | hh
        · simp at h
        · dsimp only at h
          cases hp : processCells o2 cs with
          | error e => rw [hp] at h; simp [Except.map] at h
          | ok p =>
            rw [hp] at h
            simp only [Except.map, Except.ok.injEq, Prod.mk.injEq] at h
            rw [List.foldl_cons, hst, ← h.1]
            exact ih o2 p.1 p.2 (by rw [hp])

/-- Closed instance of `mp4_options_carryover`. -/
theorem mp4_options_carryover_witness :
    "autoplay muted playsinline" =
      List.foldl stateOf defaultMp4Options [⟨"!mp4", ["options: no-loop"]⟩] :=
  mp4_options_carryover.2.2.1 [⟨"!mp4", ["options: no-loop"]⟩]
    defaultMp4Options "autoplay muted playsinline" [none] rfl

/- ## C10: content classification of the two-argument `!mp4` case -/

/-- **C10.** An `!mp4` directive with two positional values classifies each
value by its lowercased content, not by its position: a value containing
`.mp4` lands in the video-file slot, a value containing an image extension
in the poster slot, anything else in the description slot; when the two
values fall in different classes the resulting triple is independent of
their order.  One- and two-value cells never raise the `.mp4` assertion
(both branches always return `Except.ok`), and the two-value branch builds
its tag from exactly this classification. -/
theorem mp4_two_arg_classification (opts cls sty a b : String)
    (h : classOf (lowerStr a) ≠ classOf (lowerStr b)) :
    (mp4Branch opts cls sty [a]).isOk = true ∧
    (mp4Branch opts cls sty [a, b]).isOk = true ∧
    mp4Classify [a, b] = mp4Classify [b, a] ∧
    (classOf (lowerStr a) = 0 → (mp4Classify [a, b]).1 = lowerStr a) ∧
    (classOf (lowerStr a) = 1 → (mp4Classify [a, b]).2.1 = lowerStr a) ∧
    (classOf (lowerStr a) = 2 → (mp4Classify [a, b]).2.2 = lowerStr a) ∧
    (classOf (lowerStr b) = 0 → (mp4Classify [a, b]).1 = lowerStr b) ∧
    (classOf (lowerStr b) = 1 → (mp4Classify [a, b]).2.1 = lowerStr b) ∧
    (classOf (lowerStr b) = 2 → (mp4Classify [a, b]).2.2 = lowerStr b) ∧
    mp4Branch opts cls sty [a, b] =
      .ok (mp4Assemble opts cls sty (mp4Classify [a, b]) "") := by
  refine ⟨rfl, rfl, ?_⟩
  simp only [classOf] at h
  by_cases h1 : containsSub (lowerStr a) ".mp4" = true <;>
    by_cases h2 : (containsSub (lowerStr a) ".jpg" || containsSub (lowerStr a) ".png" ||
      containsSub (lowerStr a) ".svg" || containsSub (lowerStr a) ".jpeg") = true <;>
    by_cases h3 : containsSub (lowerStr b) ".mp4" = true <;>
    by_cases h4 : (containsSub (lowerStr b) ".jpg" || containsSub (lowerStr b) ".png" ||
      containsSub (lowerStr b) ".svg" || containsSub (lowerStr b) ".jpeg") = true <;>
    simp_all [mp4Classify, classOf, mp4Branch]

/-- Closed instance of `mp4_two_arg_classification`. -/
theorem mp4_two_arg_classification_witness :
    (mp4Branch defaultMp4Options "" "" ["V.MP4"]).isOk = true ∧
    (mp4Branch defaultMp4Options "" "" ["V.MP4", "IMG.JPG"]).isOk = true ∧
    mp4Classify ["V.MP4", "IMG.JPG"] = mp4Classify ["IMG.JPG", "V.MP4"] ∧
    (classOf (lowerStr "V.MP4") = 0 →
      (mp4Classify ["V.MP4", "IMG.JPG"]).1 = lowerStr "V.MP4") ∧
    (classOf (lowerStr "V.MP4") = 1 →
      (mp4Classify ["V.MP4", "IMG.JPG"]).2.1 = lowerStr "V.MP4") ∧
    (classOf (lowerStr "V.MP4") = 2 →
      (mp4Classify ["V.MP4", "IMG.JPG"]).2.2 = lowerStr "V.MP4") ∧
    (classOf (lowerStr "IMG.JPG") = 0 →
      (mp4Classify ["V.MP4", "IMG.JPG"]).1 = lowerStr "IMG.JPG") ∧
    (classOf (lowerStr "IMG.JPG") = 1 →
      (mp4Classify ["V.MP4", "IMG.JPG"]).2.1 = lowerStr "IMG.JPG") ∧
    (classOf (lowerStr "IMG.JPG") = 2 →
      (mp4Classify ["V.MP4", "IMG.JPG"]).2.2 = lowerStr "IMG.JPG") ∧
    mp4Branch defaultMp4Options "" "" ["V.MP4", "IMG.JPG"] =
      .ok (mp4Assemble defaultMp4Options "" ""
        (mp4Classify ["V.MP4", "IMG.JPG"]) "") :=
  mp4_two_arg_classification defaultMp4Options "" "" "V.MP4" "IMG.JPG" (by decide)
